import Mathlib

set_option maxRecDepth 100000

/-!
# Verification of the cost-dashboard data operations

A shallow embedding of the data-processing core of `src/dashboard.py`:
the record/dataset model, the sidebar value filters (lines 71-75), the
IQR-style outlier removal `remove_outliers` (lines 80-94) and its use at
lines 96-98, the group-by aggregation `df_grouped` (lines 219-224), the
correlation matrix (line 156), and the synthetic fallback dataset
`create_sample_data` (lines 30-54).

Numeric cell values are modelled as `Option ℚ`: `none` plays the role of
a missing value (pandas `NaN`) and `some v` a present numeric value.
Rationals are exact, so every quantile and bound computation of the
source is represented without rounding.
-/

/-- The numeric columns of the dashboard dataframe. -/
inductive NumCol where
  | labor_total
  | material_total
  | equipment_total
  | total_mat_lab_equip
deriving DecidableEq, Repr

/-- One row of the dataframe, with the columns built by
`create_sample_data` / expected by the dashboard.  Numeric cells are
`Option ℚ`; `none` is a missing value (NaN). -/
structure Row where
  file_name : String
  project_type : String
  project_year : Int
  labor_total : Option ℚ
  material_total : Option ℚ
  equipment_total : Option ℚ
  total_mat_lab_equip : Option ℚ
deriving DecidableEq, Repr

/-- Read a numeric column of a row. -/
def Row.getNum (r : Row) : NumCol → Option ℚ
  | .labor_total => r.labor_total
  | .material_total => r.material_total
  | .equipment_total => r.equipment_total
  | .total_mat_lab_equip => r.total_mat_lab_equip

/-- A dataframe: an ordered list of rows. -/
abbrev Df := List Row

/-- pandas `Series.quantile(q)` with the default linear interpolation,
over the non-missing values `xs`: sort ascending, let `h = q*(n-1)`,
and interpolate between the values at positions `⌊h⌋` and `⌊h⌋+1`.
Returns `none` (NaN) on an empty series. -/
def quantileLinear (xs : List ℚ) (q : ℚ) : Option ℚ :=
  let s := xs.insertionSort (· ≤ ·)
  if s.isEmpty then none
  else
    let h : ℚ := q * ((s.length : ℚ) - 1)
    let i : ℕ := h.floor.toNat
    let lo := s.getD i 0
    let hi := s.getD (i + 1) lo
    some (lo + (h - (i : ℚ)) * (hi - lo))

/-- The non-missing values of column `c` in `df` (pandas drops NaN when
computing a quantile). -/
def colValues (df : Df) (c : NumCol) : List ℚ :=
  df.filterMap (fun r => r.getNum c)

/-- Lines 87-91 of `remove_outliers`: `Q1 = df[col].quantile(0.05)`,
`Q3 = df[col].quantile(0.95)`, `IQR = Q3 - Q1`,
`lower_bound = Q1 - threshold*IQR`, `upper_bound = Q3 + threshold*IQR`.
The quantile pair 0.05/0.95 is hard-coded in the source; only
`threshold` is a parameter.  `none` when the column has no values
(both quantiles NaN). -/
def colBounds (df : Df) (c : NumCol) (threshold : ℚ) : Option (ℚ × ℚ) :=
  match quantileLinear (colValues df c) (1/20),
        quantileLinear (colValues df c) (19/20) with
  | some q1, some q3 =>
      some (q1 - threshold * (q3 - q1), q3 + threshold * (q3 - q1))
  | _, _ => none

/-- The boolean mask of line 92:
`(df_clean[col] >= lower_bound) & (df_clean[col] <= upper_bound)`.
A missing cell compares as NaN, i.e. false, so the row is dropped;
likewise when the bounds themselves are NaN. -/
def inBounds (df : Df) (c : NumCol) (threshold : ℚ) (r : Row) : Bool :=
  match colBounds df c threshold, r.getNum c with
  | some (lo, hi), some v => decide (lo ≤ v ∧ v ≤ hi)
  | _, _ => false

/-- `remove_outliers(df, columns, threshold)` of lines 80-94: starting
from a copy of `df`, for each column filter the running result by the
bounds computed from the ORIGINAL `df` at quantiles 0.05 and 0.95. -/
def remove_outliers (df : Df) (columns : List NumCol) (threshold : ℚ) : Df :=
  columns.foldl (fun dfClean col => dfClean.filter (inBounds df col threshold)) df

/-- The sidebar value filters of lines 71-75: `none` models the `'All'`
selection (no constraint), `some x` an equality filter on the column. -/
def filtered_df (df : Df) (selected_project_type : Option String)
    (selected_year : Option Int) : Df :=
  let f1 := match selected_project_type with
    | none => df
    | some t => df.filter (fun r => r.project_type == t)
  match selected_year with
  | none => f1
  | some y => f1.filter (fun r => r.project_year == y)

/-- Line 98's reported outlier count when "Include Outliers" is off:
`len(df) - len(filtered_df)`, where `df` is the ORIGINAL unfiltered
dataset and `filtered_df` has had the value filters and then
`remove_outliers(..., columns=['material_total','equipment_total','labor_total'], threshold=2)`
applied (lines 96-98). -/
def reported_removed (df : Df) (pt : Option String) (yr : Option Int) : ℕ :=
  df.length -
    (remove_outliers (filtered_df df pt yr)
      [.material_total, .equipment_total, .labor_total] 2).length

/-- pandas column sum as used by `.agg((col, "sum"))` at lines 219-224:
missing values are skipped, not treated as 0 (an all-missing column sums
to 0 with the default `min_count=0`). -/
def pandasSum (xs : List (Option ℚ)) : ℚ :=
  xs.foldl (fun acc x => match x with | some v => acc + v | none => acc) 0

/-- Sum of one numeric column of a dataframe, pandas style. -/
def sumCol (df : Df) (c : NumCol) : ℚ :=
  pandasSum (df.map (fun r => r.getNum c))

/-- The group keys of `filtered_df.groupby("file_name")`: the distinct
`file_name` values, in sorted order (pandas `groupby` sorts keys). -/
def groupKeys (df : Df) : List String :=
  ((df.map Row.file_name).dedup).insertionSort (· ≤ ·)

/-- `filtered_df.groupby("file_name").agg(c=(c, "sum"))` for a single
numeric column `c`: one `(key, sum)` pair per group. -/
def groupSum (df : Df) (c : NumCol) : List (String × ℚ) :=
  (groupKeys df).map (fun k =>
    (k, sumCol (df.filter (fun r => r.file_name == k)) c))

/-- The `df_grouped` aggregation of lines 219-224: per `file_name`
group, the pandas sums of the three component cost columns and the
row count. -/
def df_grouped (df : Df) : List (String × ℚ × ℚ × ℚ × ℕ) :=
  (groupKeys df).map (fun k =>
    let g := df.filter (fun r => r.file_name == k)
    (k, sumCol g .labor_total, sumCol g .material_total,
     sumCol g .equipment_total, g.length))

/-- The rows where both columns of a pair are present — pandas `.corr()`
is pairwise-complete. -/
def pairRows (df : Df) (a b : NumCol) : List (ℚ × ℚ) :=
  df.filterMap (fun r =>
    match r.getNum a, r.getNum b with
    | some x, some y => some (x, y)
    | _, _ => none)

/-- One entry of `filtered_df[[...]].corr()` at line 156: the Pearson
coefficient of the pairwise-complete rows of columns `a` and `b`.
`none` models the NaN entry pandas produces when fewer than 2 complete
rows exist or a column is constant; the function is total — the source
raises no error. -/
noncomputable def corrPair (df : Df) (a b : NumCol) : Option ℝ :=
  let ps := pairRows df a b
  if ps.length < 2 then none
  else
    let n : ℚ := (ps.length : ℚ)
    let mx : ℚ := (ps.map Prod.fst).sum / n
    let my : ℚ := (ps.map Prod.snd).sum / n
    let sxx : ℚ := (ps.map (fun p => (p.1 - mx) ^ 2)).sum
    let syy : ℚ := (ps.map (fun p => (p.2 - my) ^ 2)).sum
    let sxy : ℚ := (ps.map (fun p => (p.1 - mx) * (p.2 - my))).sum
    if sxx = 0 ∨ syy = 0 then none
    else some ((sxy : ℝ) / Real.sqrt ((sxx : ℝ) * (syy : ℝ)))

/-- The category list of line 32. -/
def project_types : List String :=
  ["Residential", "Commercial", "Transportation", "Water", "Public"]

/-- The year list of line 33. -/
def years : List Int := [2020, 2021, 2022, 2023, 2024]

/-- `create_sample_data` of lines 30-54.  Randomness is modelled by
oracle functions giving, for each index `i` of `range(50)`, the choice
indices for `np.random.choice` and the offsets for `np.random.randint`:
`randint(lo, hi)` is `lo + draw i % (hi - lo)`, which ranges over
exactly `[lo, hi)`.  Line 42 sets `total = labor + material + equipment`. -/
def create_sample_data (typeDraw yearDraw laborDraw materialDraw equipDraw :
    ℕ → ℕ) : Df :=
  (List.range 50).map (fun i =>
    let labor : ℚ := (10000 + laborDraw i % 490000 : ℕ)
    let material : ℚ := (20000 + materialDraw i % 680000 : ℕ)
    let equipment : ℚ := (5000 + equipDraw i % 295000 : ℕ)
    { file_name := "Project_" ++ toString (i + 1)
      project_type := project_types.getD (typeDraw i % 5) "Residential"
      project_year := years.getD (yearDraw i % 5) 2020
      labor_total := some labor
      material_total := some material
      equipment_total := some equipment
      total_mat_lab_equip := some (labor + material + equipment) })

/-- Modelled from the spec: `excludeOutliers(fields, lowerQuantile,
upperQuantile, multiplier)` of section 4.1, with the quantile pair as
explicit parameters.  Per named field, `Q_low`/`Q_high` are the values
at the given quantiles over the input dataset, bounds are
`[Q_low - multiplier*IQR, Q_high + multiplier*IQR]`, and a record is
retained iff every named field's value falls within its own bounds;
a record missing a named field is retained for that field's test. -/
def excludeOutliersSpec (df : Df) (fields : List NumCol)
    (lowerQuantile upperQuantile multiplier : ℚ) : Df :=
  df.filter (fun r => fields.all (fun c =>
    match r.getNum c with
    | none => true
    | some v =>
      match quantileLinear (colValues df c) lowerQuantile,
            quantileLinear (colValues df c) upperQuantile with
      | some ql, some qh =>
          decide (ql - multiplier * (qh - ql) ≤ v ∧
                  v ≤ qh + multiplier * (qh - ql))
      | _, _ => true))

/-! ## Concrete datasets for scenarios, counterexamples and witnesses -/

/-- A row of a single-group dataset carrying one value of interest in
`total_mat_lab_equip`. -/
def mkRow (v : Option ℚ) : Row :=
  { file_name := "all", project_type := "Residential", project_year := 2020,
    labor_total := some 1, material_total := some 1, equipment_total := some 1,
    total_mat_lab_equip := v }

/-- The spec scenario dataset: `total_mat_lab_equip` values [1,2,3,4,100]. -/
def exampleValues : Df :=
  [mkRow (some 1), mkRow (some 2), mkRow (some 3), mkRow (some 4),
   mkRow (some 100)]

/-- A skewed 21-row dataset: nineteen 0s, one 100, one 100000. -/
def skewedValues : Df :=
  List.replicate 19 (mkRow (some 0)) ++ [mkRow (some 100), mkRow (some 100000)]

/-- The missing-value scenario dataset: `total_mat_lab_equip` values
[100, 200, missing], all in one `file_name` group. -/
def missingValueData : Df := [mkRow (some 100), mkRow (some 200), mkRow none]

/-- A single-row dataset: not enough data for any correlation. -/
def singleRowData : Df := [mkRow (some 1)]

/-- A row with a given name and project type. -/
def mkTypedRow (name ty : String) : Row :=
  { file_name := name, project_type := ty, project_year := 2020,
    labor_total := some 1, material_total := some 1, equipment_total := some 1,
    total_mat_lab_equip := some 3 }

/-- The order-preservation scenario: 5 records, of which exactly the 2nd
and 4th have `project_type = "Residential"`. -/
def fiveRecords : Df :=
  [mkTypedRow "a" "Commercial", mkTypedRow "b" "Residential",
   mkTypedRow "c" "Water", mkTypedRow "d" "Residential",
   mkTypedRow "e" "Public"]

/-- A 2-row dataset on which the project-type filter removes one row. -/
def twoTypesData : Df :=
  [mkTypedRow "a" "Residential", mkTypedRow "b" "Commercial"]

/-! ## Helper lemmas -/

/-- `remove_outliers` is the single filter by the conjunction, over the
named columns, of the per-column bound tests — each column's bounds
being computed from the original input `df`. -/
theorem remove_outliers_eq_filter (df : Df) (t : ℚ) :
    ∀ (cols : List NumCol) (acc : Df),
      cols.foldl (fun d c => d.filter (inBounds df c t)) acc
        = acc.filter (fun r => cols.all (fun c => inBounds df c t r)) := by
  intro cols
  induction cols with
  | nil => intro acc; simp
  | cons c cs ih =>
      intro acc
      rw [List.foldl_cons, ih, List.filter_filter]
      apply List.filter_congr
      intro r _
      simp [Bool.and_comm]

theorem remove_outliers_sublist (df : Df) (cols : List NumCol) (t : ℚ) :
    List.Sublist (remove_outliers df cols t) df := by
  rw [remove_outliers, remove_outliers_eq_filter]
  exact List.filter_sublist df

theorem filtered_df_sublist (df : Df) (pt : Option String) (yr : Option Int) :
    List.Sublist (filtered_df df pt yr) df := by
  cases pt with
  | none =>
      cases yr with
      | none => exact List.Sublist.refl df
      | some y => exact List.filter_sublist df
  | some x =>
      cases yr with
      | none => exact List.filter_sublist df
      | some y => exact (List.filter_sublist _).trans (List.filter_sublist df)

/-- `quantileLinear` returns a value on any nonempty series. -/
theorem quantileLinear_isSome (xs : List ℚ) (q : ℚ) (h : xs ≠ []) :
    ∃ y, quantileLinear xs q = some y := by
  rw [quantileLinear]
  have hperm := List.perm_insertionSort (fun a b => a ≤ b) xs
  have hne : (xs.insertionSort (fun a b => a ≤ b)).isEmpty = false := by
    cases hs : xs.insertionSort (fun a b => a ≤ b) with
    | nil =>
        exact absurd (List.Perm.nil_eq (hs ▸ hperm)).symm h
    | cons a l => rfl
  simp only [hne]
  exact ⟨_, rfl⟩

/-- The pandas column sum equals the plain sum of the present values. -/
theorem pandasSum_eq_sum_filterMap (xs : List (Option ℚ)) : ∀ acc : ℚ,
    xs.foldl (fun acc x => match x with | some v => acc + v | none => acc) acc
      = acc + (xs.filterMap id).sum := by
  induction xs with
  | nil => intro acc; simp
  | cons x xs ih =>
      intro acc
      cases x with
      | none => rw [List.foldl_cons, ih]; simp
      | some v =>
          rw [List.foldl_cons, ih]
          simp [add_assoc]

/-- Pointwise-equal predicates give equal `all`. -/
theorem list_all_congr {α : Type} (l : List α) (f g : α → Bool)
    (h : ∀ a ∈ l, f a = g a) : l.all f = l.all g := by
  induction l with
  | nil => rfl
  | cons a l ih =>
      rw [List.all_cons, List.all_cons, h a (List.mem_cons_self a l),
        ih fun b hb => h b (List.mem_cons_of_mem a hb)]

/-! ## C1 -/

/-- C1 counterexample: the claim says `excludeOutliers` on the values
[1,2,3,4,100] with quantiles 0.25/0.75 and multiplier 1.5 removes the
record with value 100.  The source's `remove_outliers` accepts no
quantile parameters — it hard-codes 0.05/0.95 — and at the claim's
multiplier 1.5 it returns the dataset unchanged: the 100-record is
retained, not removed. -/
theorem remove_outliers_keeps_100_on_example :
    remove_outliers exampleValues [NumCol.total_mat_lab_equip] (3/2)
      = exampleValues := by with_unfolding_all decide

/-- C1 (amended): `remove_outliers` retains exactly the records whose
value in every named column lies within that column's bounds, each
column's bounds computed independently from the original input dataset
at the hard-coded quantiles 0.05 and 0.95 (a conjunction across
columns); on [1,2,3,4,100] those quantiles are 1.2 and 80.8, so with
multiplier 1.5 every record — including 100 — is retained. -/
theorem remove_outliers_iqr_conjunction :
    (∀ (df : Df) (cols : List NumCol) (t : ℚ),
        remove_outliers df cols t
          = df.filter (fun r => cols.all (fun c => inBounds df c t r)))
    ∧ quantileLinear [1, 2, 3, 4, 100] (1/20) = some (6/5)
    ∧ quantileLinear [1, 2, 3, 4, 100] (19/20) = some (404/5)
    ∧ remove_outliers exampleValues [NumCol.total_mat_lab_equip] (3/2)
        = exampleValues := by
  refine ⟨fun df cols t => ?_, by with_unfolding_all decide, by with_unfolding_all decide, by with_unfolding_all decide⟩
  rw [remove_outliers, remove_outliers_eq_filter]

/-! ## C2 -/

/-- C2 counterexample: `remove_outliers` is not idempotent.  On nineteen
0s, one 100 and one 100000 with threshold 2 (the dashboard's own
configuration), the first pass drops 100000 (Q05=0, Q95=100, upper
bound 300) and a second pass over the survivors drops 100 as well
(recomputed Q05=0, Q95=5, upper bound 15). -/
theorem remove_outliers_not_idempotent :
    remove_outliers (remove_outliers skewedValues [NumCol.total_mat_lab_equip] 2)
        [NumCol.total_mat_lab_equip] 2
      ≠ remove_outliers skewedValues [NumCol.total_mat_lab_equip] 2 := by with_unfolding_all decide

/-- C2 (amended): a second application of `remove_outliers` with the
same parameters never adds records back — its result is a sublist of
the single application — but it can strictly shrink it, because the
quantile bounds are recomputed from the already-reduced dataset. -/
theorem remove_outliers_twice_sublist_once :
    ∀ (df : Df) (cols : List NumCol) (t : ℚ),
      List.Sublist
        (remove_outliers (remove_outliers df cols t) cols t)
        (remove_outliers df cols t) :=
  fun df cols t => remove_outliers_sublist (remove_outliers df cols t) cols t

/-! ## C3 -/

/-- C3 counterexample: the 0.25/0.75 quantile pair cannot be selected by
the caller.  At the claimed configuration (quantiles 0.25/0.75,
multiplier 1.5) the spec's `excludeOutliers` removes the 100-record
from [1,2,3,4,100], but the source's `remove_outliers` — whose only
configuration parameter is the multiplier — disagrees. -/
theorem remove_outliers_quantiles_hard_coded :
    remove_outliers exampleValues [NumCol.total_mat_lab_equip] (3/2)
      ≠ excludeOutliersSpec exampleValues [NumCol.total_mat_lab_equip]
          (1/4) (3/4) (3/2) := by with_unfolding_all decide

/-- C3 (amended): only the multiplier is a configuration parameter of
`remove_outliers`; the quantile pair is hard-coded to 0.05/0.95.  On
datasets where every named column is present in every row, the source
operation coincides with the spec's `excludeOutliers` called at
quantiles 0.05/0.95, for every multiplier. -/
theorem remove_outliers_fixed_quantiles_refine_spec (df : Df)
    (cols : List NumCol) (t : ℚ)
    (h : ∀ r ∈ df, ∀ c ∈ cols, (r.getNum c).isSome = true) :
    remove_outliers df cols t
      = excludeOutliersSpec df cols (1/20) (19/20) t := by
  rw [remove_outliers, remove_outliers_eq_filter, excludeOutliersSpec]
  apply List.filter_congr
  intro r hr
  apply list_all_congr
  intro c hc
  obtain ⟨v, hv⟩ : ∃ v, r.getNum c = some v :=
    Option.isSome_iff_exists.mp (h r hr c hc)
  have hne : colValues df c ≠ [] := by
    intro hnil
    have hvmem : v ∈ colValues df c := List.mem_filterMap.mpr ⟨r, hr, hv⟩
    rw [hnil] at hvmem
    exact absurd hvmem (List.not_mem_nil v)
  obtain ⟨ql, hql⟩ := quantileLinear_isSome (colValues df c) (1/20) hne
  obtain ⟨qh, hqh⟩ := quantileLinear_isSome (colValues df c) (19/20) hne
  simp only [inBounds, colBounds, hql, hqh, hv]

/-- Witness for C3: the refinement evaluated on the [1,2,3,4,100]
dataset, where every row has every column present. -/
theorem remove_outliers_fixed_quantiles_refine_spec_witness :
    (∀ r ∈ exampleValues, ∀ c ∈ [NumCol.total_mat_lab_equip],
        (r.getNum c).isSome = true)
    ∧ remove_outliers exampleValues [NumCol.total_mat_lab_equip] (3/2)
        = excludeOutliersSpec exampleValues [NumCol.total_mat_lab_equip]
            (1/20) (19/20) (3/2) :=
  ⟨by decide,
   remove_outliers_fixed_quantiles_refine_spec exampleValues
     [NumCol.total_mat_lab_equip] (3/2) (by decide)⟩

/-! ## C4 -/

/-- C4: the pandas-style column sum used by the `df_grouped` aggregation
skips missing values — it equals the plain sum of the present values,
never substituting 0 for a missing one — and on the single-group
dataset with `total_mat_lab_equip` values [100, 200, missing] the
grouped sum is 300. -/
theorem sum_excludes_missing_values :
    (∀ (df : Df) (c : NumCol),
        sumCol df c = (df.filterMap (fun r => r.getNum c)).sum)
    ∧ groupSum missingValueData NumCol.total_mat_lab_equip = [("all", 300)] := by
  constructor
  · intro df c
    rw [sumCol, pandasSum, pandasSum_eq_sum_filterMap]
    simp [List.filterMap_map, Function.comp]
  · with_unfolding_all decide

/-! ## C5 -/

/-- C5 counterexample: the claim says a pair with fewer than 2 complete
rows makes the correlation fail with `InsufficientDataError`.  The
source's `corr()` call raises nothing: on a single-row dataset it
produces the NaN entry (modelled `none`) silently. -/
theorem corr_single_row_is_nan :
    corrPair singleRowData NumCol.labor_total NumCol.material_total
      = none := by with_unfolding_all rfl

/-- C5 (amended): whenever a requested field pair has fewer than 2 rows
in which both fields are present, the correlation entry is NaN
(modelled `none`); no error is raised — the operation is total. -/
theorem corr_nan_of_insufficient_rows (df : Df) (a b : NumCol)
    (h : (pairRows df a b).length < 2) : corrPair df a b = none := by
  simp only [corrPair]
  rw [if_pos h]

/-- Witness for C5: the insufficient-data theorem evaluated on the
single-row dataset. -/
theorem corr_nan_of_insufficient_rows_witness :
    (pairRows singleRowData NumCol.labor_total NumCol.material_total).length < 2
    ∧ corrPair singleRowData NumCol.labor_total NumCol.material_total = none :=
  ⟨by decide,
   corr_nan_of_insufficient_rows singleRowData NumCol.labor_total
     NumCol.material_total (by decide)⟩

/-! ## C6 -/

/-- C6: filtering with no constraints is the identity — with both
sidebar selections at `'All'` (modelled `none`), `filtered_df` returns
the input dataset itself. -/
theorem filterBy_all_identity : ∀ df : Df, filtered_df df none none = df :=
  fun _ => rfl

/-! ## C7 -/

/-- C7: neither the value filters nor `remove_outliers` ever grow the
dataset, and both preserve the original relative order (the result is a
sublist of the input); on the 5-record dataset where exactly records
"b" and "d" have `project_type = "Residential"`, the type filter
returns exactly those two, in original order. -/
theorem filters_never_grow_preserve_order :
    (∀ (df : Df) (pt : Option String) (yr : Option Int),
        List.Sublist (filtered_df df pt yr) df
        ∧ (filtered_df df pt yr).length ≤ df.length)
    ∧ (∀ (df : Df) (cols : List NumCol) (t : ℚ),
        List.Sublist (remove_outliers df cols t) df
        ∧ (remove_outliers df cols t).length ≤ df.length)
    ∧ filtered_df fiveRecords (some "Residential") none
        = [mkTypedRow "b" "Residential", mkTypedRow "d" "Residential"] :=
  ⟨fun df pt yr =>
    ⟨filtered_df_sublist df pt yr, (filtered_df_sublist df pt yr).length_le⟩,
   fun df cols t =>
    ⟨remove_outliers_sublist df cols t,
     (remove_outliers_sublist df cols t).length_le⟩,
   by with_unfolding_all decide⟩

/-! ## C9 -/

/-- C9: whatever values the random draws take, the synthetic fallback
dataset has exactly 50 records and every record satisfies
`total_mat_lab_equip = labor_total + material_total + equipment_total`. -/
theorem create_sample_data_invariants :
    ∀ typeDraw yearDraw laborDraw materialDraw equipDraw : ℕ → ℕ,
      (create_sample_data typeDraw yearDraw laborDraw materialDraw
          equipDraw).length = 50
      ∧ ∀ r ∈ create_sample_data typeDraw yearDraw laborDraw materialDraw
            equipDraw,
          ∃ l m e : ℚ, r.labor_total = some l ∧ r.material_total = some m
            ∧ r.equipment_total = some e
            ∧ r.total_mat_lab_equip = some (l + m + e) := by
  intro f1 f2 f3 f4 f5
  constructor
  · rw [create_sample_data, List.length_map, List.length_range]
  · intro r hr
    rw [create_sample_data, List.mem_map] at hr
    obtain ⟨i, hi, rfl⟩ := hr
    exact ⟨_, _, _, rfl, rfl, rfl, rfl⟩

/-! ## C10 -/

/-- C10: line 98 reports `len(df) - len(filtered_df)` against the
ORIGINAL unfiltered dataset, so whenever the project-type or year
filters have already removed records, the reported count strictly
exceeds the number of records the outlier step actually removed. -/
theorem reported_exceeds_actual_removed (df : Df) (pt : Option String)
    (yr : Option Int)
    (h : (filtered_df df pt yr).length < df.length) :
    (filtered_df df pt yr).length
        - (remove_outliers (filtered_df df pt yr)
            [.material_total, .equipment_total, .labor_total] 2).length
      < reported_removed df pt yr := by
  have h2 := (remove_outliers_sublist (filtered_df df pt yr)
      [.material_total, .equipment_total, .labor_total] 2).length_le
  rw [reported_removed]
  omega

/-- Witness for C10: on a 2-row dataset where the type filter removes
one row, the reported count (1) exceeds the actual outlier removals
(0). -/
theorem reported_exceeds_actual_removed_witness :
    (filtered_df twoTypesData (some "Residential") none).length
        < twoTypesData.length
    ∧ (filtered_df twoTypesData (some "Residential") none).length
        - (remove_outliers (filtered_df twoTypesData (some "Residential") none)
            [.material_total, .equipment_total, .labor_total] 2).length
      < reported_removed twoTypesData (some "Residential") none :=
  ⟨by with_unfolding_all decide,
   reported_exceeds_actual_removed twoTypesData (some "Residential") none
     (by with_unfolding_all decide)⟩
